import Mathlib

/-!
# Verification of the Signal Fusion Pipeline

A shallow embedding, over the rationals, of the core of the
ai-market-analysis-platform repository:

* src/ai-service/services/signal_engine.py  (the Signal Fusion Engine), and
* src/backend/src/api/ai.py                 (technical indicators, the
  prediction orchestrator with its TTL cache, the local rule-based fallback).

Python floats are modelled as rationals; Python's round builtin (round half
to even) is modelled exactly by pyRound below.  numpy's square root inside
calculate_volatility is irrational in general, so it is passed in as an
explicit parameter sqrtQ; none of the verified properties depend on its
value.  Python dicts are modelled as association lists whose lookup agrees
with dict lookup.
-/

namespace AIMP

/-! ## Python rounding

Python's round(x, n) rounds half to even.  pyRoundInt is round-half-even
to an integer; pyRound n x is round(x, n). -/

def pyRoundInt (x : ℚ) : ℤ :=
  if x - ⌊x⌋ < 1/2 then ⌊x⌋
  else if 1/2 < x - ⌊x⌋ then ⌊x⌋ + 1
  else if ⌊x⌋ % 2 = 0 then ⌊x⌋ else ⌊x⌋ + 1

def pyRound (ndigits : ℕ) (x : ℚ) : ℚ :=
  (pyRoundInt (x * 10 ^ ndigits) : ℚ) / 10 ^ ndigits

theorem floor_le_pyRoundInt (x : ℚ) : ⌊x⌋ ≤ pyRoundInt x := by
  unfold pyRoundInt
  split_ifs <;> omega

theorem pyRoundInt_le_ceil (x : ℚ) : pyRoundInt x ≤ ⌈x⌉ := by
  have hfc : ⌊x⌋ ≤ ⌈x⌉ := Int.floor_le_ceil x
  have hstep : (1 : ℚ)/2 ≤ x - ⌊x⌋ → ⌊x⌋ + 1 ≤ ⌈x⌉ := by
    intro h
    have hlt : (⌊x⌋ : ℚ) < x := by linarith
    exact Int.add_one_le_iff.mpr (Int.lt_ceil.mpr hlt)
  unfold pyRoundInt
  split_ifs with h1 h2 h3
  · exact hfc
  · exact hstep (le_of_lt h2)
  · exact hfc
  · exact hstep (by linarith)

theorem sub_half_le_pyRoundInt (x : ℚ) : x - 1/2 ≤ (pyRoundInt x : ℚ) := by
  have hlt : x < ⌊x⌋ + 1 := Int.lt_floor_add_one x
  unfold pyRoundInt
  split_ifs <;> push_cast <;> linarith

theorem pyRoundInt_le_add_half (x : ℚ) : (pyRoundInt x : ℚ) ≤ x + 1/2 := by
  have hle : (⌊x⌋ : ℚ) ≤ x := Int.floor_le x
  unfold pyRoundInt
  split_ifs <;> push_cast <;> linarith

theorem abs_pyRound_sub_le (n : ℕ) (x : ℚ) :
    |pyRound n x - x| ≤ 1 / (2 * 10 ^ n) := by
  have hpow : (0 : ℚ) < 10 ^ n := by positivity
  have h1 := sub_half_le_pyRoundInt (x * 10 ^ n)
  have h2 := pyRoundInt_le_add_half (x * 10 ^ n)
  have hl : x - 1 / (2 * 10 ^ n) ≤ pyRound n x := by
    rw [pyRound, le_div_iff₀ hpow]
    calc (x - 1 / (2 * 10 ^ n)) * 10 ^ n = x * 10 ^ n - 1/2 := by
          field_simp
          ring
      _ ≤ _ := h1
  have hr : pyRound n x ≤ x + 1 / (2 * 10 ^ n) := by
    rw [pyRound, div_le_iff₀ hpow]
    calc (pyRoundInt (x * 10 ^ n) : ℚ) ≤ x * 10 ^ n + 1/2 := h2
      _ = (x + 1 / (2 * 10 ^ n)) * 10 ^ n := by
          field_simp
          ring
  rw [abs_le]
  constructor <;> linarith

theorem pyRound_nonneg (n : ℕ) (x : ℚ) (hx : 0 ≤ x) : 0 ≤ pyRound n x := by
  have hpow : (0 : ℚ) < 10 ^ n := by positivity
  have h0 : (0 : ℤ) ≤ ⌊x * 10 ^ n⌋ := Int.floor_nonneg.mpr (by positivity)
  have := floor_le_pyRoundInt (x * 10 ^ n)
  rw [pyRound]
  apply div_nonneg _ (le_of_lt hpow)
  exact_mod_cast le_trans h0 this

theorem pyRound_le_int (n : ℕ) (x : ℚ) (z : ℤ) (h : x ≤ z) :
    pyRound n x ≤ z := by
  have hpow : (0 : ℚ) < 10 ^ n := by positivity
  have hc : ⌈x * 10 ^ n⌉ ≤ z * 10 ^ n := by
    have : x * 10 ^ n ≤ ((z * 10 ^ n : ℤ) : ℚ) := by
      push_cast
      exact mul_le_mul_of_nonneg_right h (le_of_lt hpow)
    calc ⌈x * 10 ^ n⌉ ≤ ⌈((z * 10 ^ n : ℤ) : ℚ)⌉ := Int.ceil_le_ceil this
      _ = z * 10 ^ n := Int.ceil_intCast _
  have hr : pyRoundInt (x * 10 ^ n) ≤ z * 10 ^ n :=
    le_trans (pyRoundInt_le_ceil _) hc
  rw [pyRound, div_le_iff₀ hpow]
  calc (pyRoundInt (x * 10 ^ n) : ℚ) ≤ ((z * 10 ^ n : ℤ) : ℚ) := by exact_mod_cast hr
    _ = z * 10 ^ n := by push_cast; ring

theorem int_le_pyRound (n : ℕ) (x : ℚ) (z : ℤ) (h : (z : ℚ) ≤ x) :
    (z : ℚ) ≤ pyRound n x := by
  have hpow : (0 : ℚ) < 10 ^ n := by positivity
  have hf : z * 10 ^ n ≤ ⌊x * 10 ^ n⌋ := by
    apply Int.le_floor.mpr
    push_cast
    exact mul_le_mul_of_nonneg_right h (le_of_lt hpow)
  have hr : z * 10 ^ n ≤ pyRoundInt (x * 10 ^ n) :=
    le_trans hf (floor_le_pyRoundInt _)
  rw [pyRound, le_div_iff₀ hpow]
  calc (z : ℚ) * 10 ^ n = ((z * 10 ^ n : ℤ) : ℚ) := by push_cast; ring
    _ ≤ _ := by exact_mod_cast hr

/-! ## Strings

Python str.upper(), for the ASCII strings this code base handles
(signal names, risk tiers, asset symbols). -/

def charUpper (c : Char) : Char :=
  if 'a' ≤ c ∧ c ≤ 'z' then Char.ofNat (c.toNat - 32) else c

def pyUpper (s : String) : String := ⟨s.data.map charUpper⟩

/-! ## Data model of the Signal Fusion Engine

From src/ai-service/services/signal_engine.py.  The Python code passes the
price prediction, sentiment and technical readings as dicts; the claims under
verification quantify over well-formed inputs, so the dicts are modelled as
records with every read key present (the .get defaults of the source are
then never taken).  An empty technical_indicators dict is falsy in Python,
exactly like passing None, so the optional technical argument is an Option
whose none covers both. -/

inductive SignalAction
  | BUY
  | SELL
  | HOLD
deriving DecidableEq, Repr

def SignalAction.str : SignalAction → String
  | .BUY => "BUY"
  | .SELL => "SELL"
  | .HOLD => "HOLD"

inductive TrendDirection
  | UP
  | DOWN
  | SIDEWAYS
deriving DecidableEq, Repr

inductive RiskLevel
  | LOW
  | MEDIUM
  | HIGH
deriving DecidableEq, Repr

/-- Numeric rank of a risk tier (LOW below MEDIUM below HIGH),
used to state the monotonicity claim. -/
def RiskLevel.rank : RiskLevel → ℕ
  | .LOW => 1
  | .MEDIUM => 2
  | .HIGH => 3

/-- One feature-importance entry: a dict of the shape
that appears in feature_importance lists. -/
structure Feature where
  name : String
  value : ℚ
deriving DecidableEq, Repr

structure PredictionRange where
  low : ℚ
  high : ℚ
deriving DecidableEq, Repr

/-- Output dataclass TradingSignal of signal_engine.py. -/
structure TradingSignal where
  asset : String
  signal : SignalAction
  confidence : ℚ
  trend : TrendDirection
  risk_level : RiskLevel
  predicted_price : ℚ
  predicted_range : PredictionRange
  feature_importance : List Feature
  reasoning : String
deriving DecidableEq, Repr

/-- The scores sub-dict of a sentiment reading;
_assess_combined_risk reads only the positive and negative keys. -/
structure SentimentScores where
  positive : ℚ
  negative : ℚ
deriving DecidableEq, Repr

/-- The sentiment dict consumed by SignalEngine.generate_signal. -/
structure SentimentInput where
  sentiment : String
  confidence : ℚ
  scores : SentimentScores
deriving DecidableEq, Repr

/-- The price_prediction dict consumed by SignalEngine.generate_signal. -/
structure PricePredictionInput where
  signal : String
  confidence : ℚ
  trend : String
  risk_level : String
  predicted_price : ℚ
  predicted_range : PredictionRange
  feature_importance : List Feature
deriving DecidableEq, Repr

/-- The technical_indicators dict; generate_signal and
_assess_combined_risk read only the rsi key. -/
structure TechnicalInput where
  rsi : ℚ
deriving DecidableEq, Repr

/-! ## SignalEngine

The engine is constructed everywhere with its default weights
(price 0.6, sentiment 0.3, technical 0.1). -/

def price_weight : ℚ := 6/10

def sentiment_weight : ℚ := 3/10

def technical_weight : ℚ := 1/10

/-- SignalEngine._normalize_signal. -/
def normalizeSignal (signal : String) : String :=
  let u := pyUpper signal
  if u = "BUY" ∨ u = "SELL" ∨ u = "HOLD" then u else "HOLD"

/-- The dict lookup mapping BUY to 1, HOLD to 0, SELL to -1
(anything else defaults to 0). -/
def signalDirection (s : String) : ℚ :=
  if s = "BUY" then 1 else if s = "SELL" then -1 else 0

/-- The dict lookup mapping positive to 1, neutral to 0, negative to -1
(anything else defaults to 0). -/
def sentimentDirection (s : String) : ℚ :=
  if s = "positive" then 1 else if s = "negative" then -1 else 0

/-- The technical confirmation score of generate_signal:
RSI below 30 is bullish, above 70 bearish, else 0. -/
def technicalScore (t : Option TechnicalInput) : ℚ :=
  match t with
  | none => 0
  | some tt => if tt.rsi < 30 then 1/2 else if 70 < tt.rsi then -1/2 else 0

/-- The combined weighted score computed inside generate_signal. -/
def combinedScore (p : PricePredictionInput) (s : SentimentInput)
    (t : Option TechnicalInput) : ℚ :=
  let price_signal := normalizeSignal p.signal
  let price_score := signalDirection price_signal * (p.confidence / 100)
  let sentiment_contribution := sentimentDirection s.sentiment * s.confidence
  price_score * price_weight + sentiment_contribution * sentiment_weight +
    technicalScore t * technical_weight

/-- The dict lookup {"LOW": 1, "MEDIUM": 2, "HIGH": 3} with default 2,
applied to the uppercased risk string. -/
def riskScore (risk : String) : ℚ :=
  let u := pyUpper risk
  if u = "LOW" then 1 else if u = "MEDIUM" then 2 else if u = "HIGH" then 3 else 2

/-- SignalEngine._assess_combined_risk. -/
def assessCombinedRisk (price_risk : String) (s : SentimentInput)
    (t : Option TechnicalInput) : RiskLevel :=
  let base := riskScore price_risk
  let spread := |s.scores.positive - s.scores.negative|
  let base := if spread < 2/10 then base + 1/2 else base
  let base := match t with
    | some tt => if tt.rsi < 20 ∨ 80 < tt.rsi then base + 1/2 else base
    | none => base
  if 5/2 ≤ base then .HIGH else if 3/2 ≤ base then .MEDIUM else .LOW

/-! Python dict built by comprehension from the feature list: first
insertion fixes the position, a later duplicate name overwrites the value
in place.  Modelled as an association list with the same iteration order. -/

def insertFeature (m : List (String × ℚ)) (name : String) (v : ℚ) :
    List (String × ℚ) :=
  if m.any (fun kv => kv.1 = name) then
    m.map (fun kv => if kv.1 = name then (kv.1, v) else kv)
  else m ++ [(name, v)]

def featuresDict (fs : List Feature) : List (String × ℚ) :=
  fs.foldl (fun m f => insertFeature m f.name f.value) []

/-- The feature map after the Sentiment Score injection step of
_combine_feature_importance. -/
def featuresWithSentiment (price_features : List Feature)
    (sentiment_score : ℚ) : List (String × ℚ) :=
  let features := featuresDict price_features
  if features.any (fun kv => kv.1 = "Sentiment Score") then features
  else features ++ [("Sentiment Score", sentiment_weight * sentiment_score)]

/-- Stable insertion of a feature into a descending-sorted list: the new
element goes in front of the first entry whose value is at most its own,
so among equal values the earlier-inserted element stays first. -/
def insertDesc (x : Feature) : List Feature → List Feature
  | [] => [x]
  | y :: t => if y.value ≤ x.value then x :: y :: t else y :: insertDesc x t

/-- Python's list.sort(key=value, reverse=True) is a stable descending
sort; stable insertion sort computes the same list (the stably sorted
permutation is unique), and is structurally recursive. -/
def sortDesc : List Feature → List Feature
  | [] => []
  | x :: t => insertDesc x (sortDesc t)

/-- SignalEngine._combine_feature_importance.  Python raises
ZeroDivisionError when the weights sum to exactly 0; that raise is
modelled as none. -/
def combineFeatureImportance (price_features : List Feature)
    (sentiment_score : ℚ) : Option (List Feature) :=
  let features := featuresWithSentiment price_features sentiment_score
  let total := (features.map (fun kv => kv.2)).sum
  if total = 0 then none
  else
    let normalized := features.map
      (fun kv => Feature.mk kv.1 (pyRound 2 (kv.2 / total)))
    some ((sortDesc normalized).take 6)

/-- The qualitative sentiment strength word of _generate_reasoning. -/
def strengthWord (sentiment_score : ℚ) : String :=
  if 7/10 < sentiment_score then "strong"
  else if 1/2 < sentiment_score then "moderate"
  else "weak"

/-- Python percent formatting with zero digits, as in the
sentiment part of the reasoning template. -/
def fmtPct (x : ℚ) : String := toString (pyRoundInt (x * 100)) ++ "%"

/-- SignalEngine._generate_reasoning. -/
def generateReasoning (final : SignalAction) (price_signal : String)
    (sentiment_label : String) (sentiment_score : ℚ)
    (t : Option TechnicalInput) : String :=
  let p1 := if price_signal = final.str then
      "Price prediction model suggests " ++ price_signal
    else "Price model shows " ++ price_signal ++ " but signal adjusted"
  let p2 := strengthWord sentiment_score ++ " " ++ sentiment_label ++
    " market sentiment (" ++ fmtPct sentiment_score ++ " confidence)"
  let parts := [p1, p2]
  let parts := match t with
    | some tt =>
      if tt.rsi < 30 then parts ++ ["RSI indicates oversold conditions"]
      else if 70 < tt.rsi then parts ++ ["RSI indicates overbought conditions"]
      else parts
    | none => parts
  "Signal: " ++ final.str ++ ". " ++ String.intercalate ". " parts ++ "."

/-- SignalEngine.generate_signal.  none models the ZeroDivisionError
escaping from _combine_feature_importance. -/
def generateSignal (asset : String) (p : PricePredictionInput)
    (s : SentimentInput) (t : Option TechnicalInput) : Option TradingSignal :=
  let combined := combinedScore p s t
  let final : SignalAction × TrendDirection :=
    if 2/10 < combined then (.BUY, .UP)
    else if combined < -(2/10) then (.SELL, .DOWN)
    else (.HOLD, .SIDEWAYS)
  let final_confidence := min 95 (50 + |combined| * 60)
  let risk := assessCombinedRisk p.risk_level s t
  match combineFeatureImportance p.feature_importance s.confidence with
  | none => none
  | some fi => some
      { asset := asset
        signal := final.1
        confidence := pyRound 1 final_confidence
        trend := final.2
        risk_level := risk
        predicted_price := p.predicted_price
        predicted_range := p.predicted_range
        feature_importance := fi
        reasoning := generateReasoning final.1 (normalizeSignal p.signal)
          s.sentiment s.confidence t }

/-! ## Technical indicators (src/backend/src/api/ai.py)

Price series are lists of rationals (closing prices, oldest first).
np.mean of an empty array is NaN in numpy; with the guards of the source
that case is never taken on any path a claim quantifies over, and listMean
returns 0 there (0 / 0 = 0 in Lean). -/

def listMean (l : List ℚ) : ℚ := l.sum / l.length

/-- np.diff: consecutive differences. -/
def diffs (l : List ℚ) : List ℚ := List.zipWith (fun a b => b - a) l l.tail

/-- numpy slicing a[-k:]: the trailing k elements. -/
def lastN (k : ℕ) (l : List ℚ) : List ℚ := l.drop (l.length - k)

/-- calculate_rsi of ai.py (default period 14). -/
def calculate_rsi (prices : List ℚ) (period : ℕ := 14) : ℚ :=
  if prices.length < period + 1 then 50
  else
    let deltas := diffs prices
    let gains := deltas.map (fun d => if 0 < d then d else 0)
    let losses := deltas.map (fun d => if d < 0 then -d else 0)
    let avg_gain := listMean (lastN period gains)
    let avg_loss := listMean (lastN period losses)
    if avg_loss = 0 then 100
    else
      let rs := avg_gain / avg_loss
      pyRound 2 (100 - 100 / (1 + rs))

/-- calculate_ema of ai.py: seeded at prices[-period], then smoothed over
prices[-period+1:].  All call sites use period at least 9, so the window
below is nonempty whenever the else branch is taken; the unreachable []
case returns 0. -/
def calculate_ema (prices : List ℚ) (period : ℕ) : ℚ :=
  if prices.length < period then listMean prices
  else
    let multiplier : ℚ := 2 / (period + 1)
    match lastN period prices with
    | [] => 0
    | e :: rest => rest.foldl (fun ema price => (price - ema) * multiplier + ema) e

structure MacdResult where
  macd : ℚ
  signal : ℚ
  histogram : ℚ
deriving DecidableEq, Repr

/-- calculate_macd of ai.py.  macd_line is a Python float, so the
isinstance(macd_line, (int, float)) test is always true and the signal
line is calculate_ema applied to the one-element array [macd_line]
(the dead else branch macd_line * 0.9 is never taken). -/
def calculate_macd (prices : List ℚ) : MacdResult :=
  if prices.length < 26 then ⟨0, 0, 0⟩
  else
    let ema12 := calculate_ema prices 12
    let ema26 := calculate_ema prices 26
    let macd_line := ema12 - ema26
    let signal_line := calculate_ema [macd_line] 9
    let histogram := macd_line - signal_line
    ⟨pyRound 4 macd_line, pyRound 4 signal_line, pyRound 4 histogram⟩

structure MovingAverages where
  sma_20 : ℚ
  sma_50 : ℚ
  ema_12 : ℚ
  ema_26 : ℚ
deriving DecidableEq, Repr

/-- calculate_moving_averages of ai.py (the short-history branches return
the unrounded mean, as in the source). -/
def calculate_moving_averages (prices : List ℚ) : MovingAverages :=
  { sma_20 := if 20 ≤ prices.length then pyRound 2 (listMean (lastN 20 prices))
      else listMean prices
    sma_50 := if 50 ≤ prices.length then pyRound 2 (listMean (lastN 50 prices))
      else listMean prices
    ema_12 := pyRound 2 (calculate_ema prices 12)
    ema_26 := pyRound 2 (calculate_ema prices 26) }

/-- calculate_volatility of ai.py: np.std of the trailing 20 percentage
returns, times 100.  np.std takes a square root, which is irrational in
general; it enters as the parameter sqrtQ. -/
def calculate_volatility (sqrtQ : ℚ → ℚ) (prices : List ℚ)
    (period : ℕ := 20) : ℚ :=
  if prices.length < 2 then 0
  else
    let returns := List.zipWith (fun a b => (b - a) / a) prices prices.tail
    let r := lastN period returns
    let m := listMean r
    let variance := listMean (r.map (fun x => (x - m) ^ 2))
    pyRound 2 (sqrtQ variance * 100)

/-! ## Local rule-based analysis (ai.py) -/

/-- Python fixed-point formatting with one digit, as used in the reason
strings of _analyze_indicators.  (The negative-zero edge of Python,
formatting -0.04 as -0.0, cannot arise at the call sites: rsi is
nonnegative and price_change is only formatted when its magnitude
exceeds 1.) -/
def fmt1 (x : ℚ) : String :=
  let r := pyRoundInt (x * 10)
  let sign := if r < 0 then "-" else ""
  sign ++ toString (r.natAbs / 10) ++ "." ++ toString (r.natAbs % 10)

structure AnalysisResult where
  signal : String
  confidence : ℚ
  trend : String
  reasoning : String
deriving DecidableEq, Repr

/-- _analyze_indicators of ai.py: five voting checks feeding
buy_signals / sell_signals tallies, then signal, confidence and a
reasoning string from the first three reasons. -/
def analyze_indicators (current_price prev_close rsi : ℚ) (macd : MacdResult)
    (mas : MovingAverages) (volatility : ℚ) : AnalysisResult :=
  let rsiVote : ℕ × ℕ × List String :=
    if rsi < 30 then (2, 0, ["RSI oversold (" ++ fmt1 rsi ++ ")"])
    else if rsi < 40 then (1, 0, ["RSI approaching oversold (" ++ fmt1 rsi ++ ")"])
    else if 70 < rsi then (0, 2, ["RSI overbought (" ++ fmt1 rsi ++ ")"])
    else if 60 < rsi then (0, 1, ["RSI approaching overbought (" ++ fmt1 rsi ++ ")"])
    else (0, 0, [])
  let macdVote : ℕ × ℕ × List String :=
    if 0 < macd.histogram then (1, 0, ["MACD bullish"])
    else if macd.histogram < 0 then (0, 1, ["MACD bearish"])
    else (0, 0, [])
  let smaVote : ℕ × ℕ × List String :=
    if mas.sma_20 < current_price then (1, 0, ["Price above SMA20"])
    else (0, 1, ["Price below SMA20"])
  let emaVote : ℕ × ℕ × List String :=
    if mas.ema_26 < mas.ema_12 then (1, 0, ["EMA12 > EMA26 (bullish cross)"])
    else (0, 1, ["EMA12 < EMA26 (bearish cross)"])
  let price_change :=
    if 0 < prev_close then (current_price - prev_close) / prev_close * 100 else 0
  let momVote : ℕ × ℕ × List String :=
    if 1 < price_change then
      (1, 0, ["Strong upward momentum (+" ++ fmt1 price_change ++ "%)"])
    else if price_change < -1 then
      (0, 1, ["Strong downward momentum (" ++ fmt1 price_change ++ "%)"])
    else (0, 0, [])
  let buy := rsiVote.1 + macdVote.1 + smaVote.1 + emaVote.1 + momVote.1
  let sell := rsiVote.2.1 + macdVote.2.1 + smaVote.2.1 + emaVote.2.1 + momVote.2.1
  let reasons := rsiVote.2.2 ++ macdVote.2.2 ++ smaVote.2.2 ++ emaVote.2.2 ++ momVote.2.2
  let total := buy + sell
  let stc : String × String × ℚ :=
    if sell + 1 < buy then
      ("BUY", "UP",
        if 0 < total then 50 + ((buy : ℚ) - sell) / total * 40 else 60)
    else if buy + 1 < sell then
      ("SELL", "DOWN",
        if 0 < total then 50 + ((sell : ℚ) - buy) / total * 40 else 60)
    else
      ("HOLD", "SIDEWAYS",
        if 0 < total then 50 + |(buy : ℚ) - sell| / total * 20 else 55)
  let confidence := if 5 < volatility then min stc.2.2 75 else stc.2.2
  let reasoning :=
    stc.1 ++ " signal based on: " ++ String.intercalate ", " (reasons.take 3)
  ⟨stc.1, min confidence 95, stc.2.1, reasoning⟩

/-- _calculate_risk of ai.py. -/
def calculate_risk (rsi volatility : ℚ) : String :=
  let rsiScore : ℕ := if rsi < 25 ∨ 75 < rsi then 2
    else if rsi < 35 ∨ 65 < rsi then 1 else 0
  let volScore : ℕ := if 5 < volatility then 2
    else if 3 < volatility then 1 else 0
  let risk_score := rsiScore + volScore
  if 3 ≤ risk_score then "HIGH" else if 1 ≤ risk_score then "MEDIUM" else "LOW"

/-! ## Prediction orchestrator and cache (ai.py)

The backend Pydantic model AISignal has string-typed signal, trend and
risk_level fields; its timestamp is datetime.utcnow().isoformat(), modelled
as an opaque string supplied by the caller along with the numeric clock now
(time.time()).  The outcomes of the two effectful collaborators are oracle
arguments: FetchOutcome for the yfinance history download (failure covers
an exception escaping the try block), and an Option AISignal for
call_ai_service, whose none covers every failure mode (non-2xx status of
either call, exception, or timeout — call_ai_service itself collapses all
of them to None). -/

structure AISignal where
  asset : String
  timestamp : String
  signal : String
  confidence : ℚ
  trend : String
  risk_level : String
  predicted_price : ℚ
  predicted_range : PredictionRange
  feature_importance : List Feature
  reasoning : String
deriving DecidableEq, Repr

/-- The provenance tag appended to reasoning on the local rule-based
fallback path. -/
def fallbackTag : String := " (Fallback: Rule-based)"

/-- The provenance tag appended by call_ai_service to reasoning of a
signal obtained from the external AI service. -/
def externalTag : String := " (Powered by Deep Learning)"

/-- The response payload of the AI service's signal endpoint, before
call_ai_service converts it. -/
structure ServiceSignalData where
  asset : String
  signal : String
  confidence : ℚ
  trend : String
  risk_level : String
  predicted_price : ℚ
  predicted_range : PredictionRange
  feature_importance : List Feature
  reasoning : String
deriving DecidableEq, Repr

/-- The AISignal that call_ai_service builds from a successful service
response. -/
def convertServiceSignal (d : ServiceSignalData) (nowIso : String) : AISignal :=
  { asset := d.asset
    timestamp := nowIso
    signal := d.signal
    confidence := d.confidence
    trend := d.trend
    risk_level := d.risk_level
    predicted_price := d.predicted_price
    predicted_range := d.predicted_range
    feature_importance := d.feature_importance
    reasoning := d.reasoning ++ externalTag }

/-- The module-level prediction_cache dict: symbol to cached signal plus
creation time.  Dict assignment is modelled by consing the new binding in
front; List.lookup then returns exactly what dict lookup returns. -/
structure CacheEntry where
  data : AISignal
  timestamp : ℚ
deriving DecidableEq, Repr

def Cache := List (String × CacheEntry)

def PREDICTION_CACHE_TTL : ℚ := 60

/-- The cache check at the top of generate_real_prediction: a hit needs the
key present and now - created_at strictly below the TTL. -/
def cacheLookup (cache : Cache) (asset : String) (now : ℚ) : Option AISignal :=
  match List.lookup (pyUpper asset) cache with
  | none => none
  | some e => if now - e.timestamp < PREDICTION_CACHE_TTL then some e.data else none

/-- Dict assignment prediction_cache[asset.upper()] = entry. -/
def cacheStore (cache : Cache) (asset : String) (e : CacheEntry) : Cache :=
  (pyUpper asset, e) :: cache

/-- Outcome of the yfinance history download. -/
inductive FetchOutcome
  | failure
  | success (prices : List ℚ)

/-- The hard-coded base_prices table of _generate_fallback_prediction. -/
def base_prices : List (String × ℚ) :=
  [("BTC-USD", 100000), ("ETH-USD", 3300), ("SOL-USD", 240),
   ("AAPL", 235), ("MSFT", 450), ("GOOGL", 198), ("AMZN", 235),
   ("NVDA", 135), ("META", 700), ("TSLA", 400), ("XAU-USD", 2760)]

/-- _generate_fallback_prediction of ai.py: the static HOLD signal used
when market data is unavailable. -/
def generateFallbackPrediction (asset : String) (nowIso : String) : AISignal :=
  let base_price := (List.lookup (pyUpper asset) base_prices).getD 100
  { asset := pyUpper asset
    timestamp := nowIso
    signal := "HOLD"
    confidence := 55
    trend := "SIDEWAYS"
    risk_level := "MEDIUM"
    predicted_price := base_price
    predicted_range := ⟨pyRound 2 (base_price * (95/100)), pyRound 2 (base_price * (105/100))⟩
    feature_importance := [⟨"Data Unavailable", 1⟩]
    reasoning := "Market data temporarily unavailable. Using conservative HOLD signal." }

/-- prices[-2] when the series has more than one point, else prices[-1]. -/
def prevClose (prices : List ℚ) (current_price : ℚ) : ℚ :=
  if 1 < prices.length then ((lastN 2 prices).headD current_price) else current_price

/-- The feature-importance list built on the local rule-based fallback path
of generate_real_prediction.  Note the normalizing total omits the momentum
term that the Price Momentum entry contributes. -/
def fallbackFeatures (rsi : ℚ) (macd : MacdResult) (volatility price_change : ℚ) :
    List Feature :=
  let total_weight := |rsi - 50| + |macd.histogram| * 1000 + volatility + 10
  [⟨"RSI Signal", pyRound 2 (|rsi - 50| / total_weight)⟩,
   ⟨"MACD Histogram", pyRound 2 (|macd.histogram| * 1000 / total_weight)⟩,
   ⟨"Price Momentum", pyRound 2 (|price_change| * 100 / total_weight)⟩,
   ⟨"Volatility", pyRound 2 (volatility / total_weight)⟩,
   ⟨"Moving Avg Cross", pyRound 2 (10 / total_weight)⟩]

/-- The result of one generate_real_prediction run: the returned signal,
the prediction cache afterwards, and whether any outbound call to the AI
service was attempted. -/
structure RunResult where
  result : AISignal
  cache : Cache
  madeExternalCall : Bool

/-- The body of generate_real_prediction past the cache check: fetch real
data, compute indicators, try the AI service, else fall back to the local
rule-based signal; the static fallback (no data) is returned without
being cached. -/
def computePrediction (sqrtQ : ℚ → ℚ) (cache : Cache) (now : ℚ) (nowIso : String)
    (asset : String) (fetch : FetchOutcome) (aiOutcome : Option AISignal) :
    RunResult :=
  match fetch with
  | .failure => ⟨generateFallbackPrediction asset nowIso, cache, false⟩
  | .success prices =>
    match prices.getLast? with
    | none => ⟨generateFallbackPrediction asset nowIso, cache, false⟩
    | some current_price =>
      let prev_close := prevClose prices current_price
      let rsi := calculate_rsi prices
      let macd := calculate_macd prices
      let mas := calculate_moving_averages prices
      let volatility := calculate_volatility sqrtQ prices
      match aiOutcome with
      | some sig => ⟨sig, cacheStore cache asset ⟨sig, now⟩, true⟩
      | none =>
        let analysis := analyze_indicators current_price prev_close rsi macd mas volatility
        let risk_level := calculate_risk rsi volatility
        let price_change :=
          if 0 < prev_close then (current_price - prev_close) / prev_close else 0
        let predicted_price := current_price * (1 + price_change * (1/2))
        let price_range : PredictionRange :=
          ⟨pyRound 2 (current_price * (1 - volatility / 100 * 2)),
           pyRound 2 (current_price * (1 + volatility / 100 * 2))⟩
        let result : AISignal :=
          { asset := pyUpper asset
            timestamp := nowIso
            signal := analysis.signal
            confidence := pyRound 1 analysis.confidence
            trend := analysis.trend
            risk_level := risk_level
            predicted_price := pyRound 2 predicted_price
            predicted_range := price_range
            feature_importance := fallbackFeatures rsi macd volatility price_change
            reasoning := analysis.reasoning ++ fallbackTag }
        ⟨result, cacheStore cache asset ⟨result, now⟩, true⟩

/-- generate_real_prediction of ai.py. -/
def generateRealPrediction (sqrtQ : ℚ → ℚ) (cache : Cache) (now : ℚ)
    (nowIso : String) (asset : String) (fetch : FetchOutcome)
    (aiOutcome : Option AISignal) : RunResult :=
  match cacheLookup cache asset now with
  | some sig => ⟨sig, cache, false⟩
  | none => computePrediction sqrtQ cache now nowIso asset fetch aiOutcome

/-! ## Inversion helpers -/

/-- What a successful generate_signal run determines about each field. -/
theorem generateSignal_inv (asset : String) (p : PricePredictionInput)
    (s : SentimentInput) (t : Option TechnicalInput) (ts : TradingSignal)
    (h : generateSignal asset p s t = some ts) :
    combineFeatureImportance p.feature_importance s.confidence =
      some ts.feature_importance ∧
    ts.signal = (if 2/10 < combinedScore p s t then SignalAction.BUY
      else if combinedScore p s t < -(2/10) then SignalAction.SELL
      else SignalAction.HOLD) ∧
    ts.trend = (if 2/10 < combinedScore p s t then TrendDirection.UP
      else if combinedScore p s t < -(2/10) then TrendDirection.DOWN
      else TrendDirection.SIDEWAYS) ∧
    ts.confidence = pyRound 1 (min 95 (50 + |combinedScore p s t| * 60)) ∧
    ts.risk_level = assessCombinedRisk p.risk_level s t := by
  cases hc : combineFeatureImportance p.feature_importance s.confidence with
  | none => simp [generateSignal, hc] at h
  | some fi =>
    simp only [generateSignal, hc, Option.some.injEq] at h
    subst h
    refine ⟨rfl, ?_, ?_, rfl, rfl⟩
    · split_ifs <;> rfl
    · split_ifs <;> rfl

/-! ## C1: combined score and decision thresholds

The claim is a refinement statement: the combined score of the code must
equal the formula of the spec, and the decision must follow the spec's
thresholds.  The spec-side quantities are the specXxx definitions below,
written from the spec's words. -/

/-- Modelled from the spec: BUY maps to +1, HOLD to 0, SELL to -1, scaled
by the price confidence over 100. -/
def specPriceScore (p : PricePredictionInput) : ℚ :=
  (if p.signal = "BUY" then 1 else if p.signal = "SELL" then -1 else 0) *
    (p.confidence / 100)

/-- Modelled from the spec: positive maps to +1, neutral to 0, negative
to -1, scaled by the sentiment confidence. -/
def specSentimentScore (s : SentimentInput) : ℚ :=
  (if s.sentiment = "positive" then 1
    else if s.sentiment = "negative" then -1 else 0) * s.confidence

/-- Modelled from the spec: RSI below 30 contributes +0.5, above 70
contributes -0.5, else 0. -/
def specTechnicalScore (t : Option TechnicalInput) : ℚ :=
  match t with
  | none => 0
  | some tt => if tt.rsi < 30 then 1/2 else if 70 < tt.rsi then -1/2 else 0

/-- Modelled from the spec: combined = price_score * 0.6 +
sentiment_score * 0.3 + technical_score * 0.1. -/
def specCombined (p : PricePredictionInput) (s : SentimentInput)
    (t : Option TechnicalInput) : ℚ :=
  specPriceScore p * (6/10) + specSentimentScore s * (3/10) +
    specTechnicalScore t * (1/10)

/-- C1: for every well-formed input to the Signal Fusion Engine, the
combined score equals price_score * 0.6 + sentiment_score * 0.3 +
technical_score * 0.1 (price_score maps BUY/HOLD/SELL to +1, 0, -1 scaled by
price confidence / 100, sentiment maps positive/neutral/negative to +1, 0, -1
scaled by sentiment confidence, technical score is +0.5 when RSI < 30,
-0.5 when RSI > 70, else 0), and the emitted signal/trend is BUY/UP exactly
when combined > 0.2, SELL/DOWN exactly when combined < -0.2, and
HOLD/SIDEWAYS otherwise. -/
theorem C1_combined_score_thresholds (asset : String)
    (p : PricePredictionInput) (s : SentimentInput) (t : Option TechnicalInput)
    (ts : TradingSignal)
    (hsig : p.signal = "BUY" ∨ p.signal = "HOLD" ∨ p.signal = "SELL")
    (h : generateSignal asset p s t = some ts) :
    combinedScore p s t = specCombined p s t ∧
    ((ts.signal = SignalAction.BUY ∧ ts.trend = TrendDirection.UP) ↔
      2/10 < specCombined p s t) ∧
    ((ts.signal = SignalAction.SELL ∧ ts.trend = TrendDirection.DOWN) ↔
      specCombined p s t < -(2/10)) ∧
    ((ts.signal = SignalAction.HOLD ∧ ts.trend = TrendDirection.SIDEWAYS) ↔
      (¬ 2/10 < specCombined p s t ∧ ¬ specCombined p s t < -(2/10))) := by
  obtain ⟨-, hsg, htr, -, -⟩ := generateSignal_inv asset p s t ts h
  have hn : normalizeSignal p.signal = p.signal := by
    rcases hsig with h1 | h1 | h1 <;> rw [h1] <;> decide
  have hcs : combinedScore p s t = specCombined p s t := by
    unfold combinedScore specCombined specPriceScore specSentimentScore
      specTechnicalScore signalDirection sentimentDirection technicalScore
      price_weight sentiment_weight technical_weight
    rw [hn]
  rw [hcs] at hsg htr
  set c := specCombined p s t with hc
  refine ⟨hcs, ?_, ?_, ?_⟩
  · constructor
    · rintro ⟨h1, -⟩
      by_contra hnlt
      rw [hsg, if_neg hnlt] at h1
      split_ifs at h1
    · intro hlt
      rw [hsg, if_pos hlt, htr, if_pos hlt]
      exact ⟨rfl, rfl⟩
  · constructor
    · rintro ⟨h1, -⟩
      by_contra hnlt
      rw [hsg] at h1
      split_ifs at h1
    · intro hlt
      have hg : ¬ 2/10 < c := by linarith
      rw [hsg, if_neg hg, if_pos hlt, htr, if_neg hg, if_pos hlt]
      exact ⟨rfl, rfl⟩
  · constructor
    · rintro ⟨h1, -⟩
      rw [hsg] at h1
      constructor <;> intro hx
      · rw [if_pos hx] at h1
        exact absurd h1 (by decide)
      · have hg : ¬ 2/10 < c := by linarith
        rw [if_neg hg, if_pos hx] at h1
        exact absurd h1 (by decide)
    · rintro ⟨h1, h2⟩
      rw [hsg, if_neg h1, if_neg h2, htr, if_neg h1, if_neg h2]
      exact ⟨rfl, rfl⟩

/-- The demo price prediction of signal_engine.py (BUY, confidence 75,
four features). -/
def demoP : PricePredictionInput :=
  ⟨"BUY", 75, "UP", "MEDIUM", 44500, ⟨42500, 46500⟩,
    [⟨"Volume", 1/4⟩, ⟨"RSI", 1/5⟩, ⟨"MACD", 9/50⟩, ⟨"Momentum", 3/20⟩]⟩

/-- The demo sentiment of signal_engine.py (positive, 0.82). -/
def demoS : SentimentInput := ⟨"positive", 82/100, ⟨82/100, 6/100⟩⟩

/-- The demo technical reading of signal_engine.py (RSI 45). -/
def demoT : Option TechnicalInput := some ⟨45⟩

/-- The TradingSignal the engine produces on the demo input. -/
def demoTS : TradingSignal :=
  ⟨"BTC-USD", .BUY, 459/5, .UP, .MEDIUM, 44500, ⟨42500, 46500⟩,
    [⟨"Volume", 6/25⟩, ⟨"Sentiment Score", 6/25⟩, ⟨"RSI", 19/100⟩,
     ⟨"MACD", 9/50⟩, ⟨"Momentum", 3/20⟩],
    "Signal: BUY. Price prediction model suggests BUY. strong positive market sentiment (82% confidence)."⟩

/-- Witness for C1 at the demo scenario of signal_engine.py: the combined
score is 0.696 > 0.2 and the fused signal is BUY/UP. -/
theorem C1_combined_score_thresholds_witness :
    generateSignal "BTC-USD" demoP demoS demoT = some demoTS ∧
    demoTS.signal = SignalAction.BUY ∧ demoTS.trend = TrendDirection.UP := by
  have h : generateSignal "BTC-USD" demoP demoS demoT = some demoTS := by
    norm_num +decide [generateSignal, demoP, demoS, demoT, demoTS, combinedScore,
      normalizeSignal, pyUpper, charUpper, signalDirection, sentimentDirection,
      technicalScore, price_weight, sentiment_weight, technical_weight,
      assessCombinedRisk, riskScore, combineFeatureImportance,
      featuresWithSentiment, featuresDict, insertFeature, insertDesc, sortDesc,
      pyRound, pyRoundInt, generateReasoning, strengthWord, fmtPct,
      SignalAction.str, min_def, Int.fract, abs_of_nonneg, abs_of_nonpos]
  have hc := C1_combined_score_thresholds "BTC-USD" demoP demoS demoT demoTS
    (Or.inl rfl) h
  exact ⟨h, hc.2.1.mpr (by norm_num [specCombined, specPriceScore,
    specSentimentScore, specTechnicalScore, demoP, demoS, demoT])⟩

/-! ## C2: fused confidence

The claim states the reported confidence equals
min(95, 50 + |combined| * 60) exactly; the source rounds that quantity to
one decimal before reporting it (round(final_confidence, 1)), so the claim
fails whenever the quantity has more than one decimal.  The amended claim
adds the rounding; the bounds part holds (the reported value even lies in
[50, 95]). -/

/-- A price prediction whose fused confidence is not one-decimal exact:
BUY at confidence 37 with a single feature. -/
def cexP2 : PricePredictionInput :=
  ⟨"BUY", 37, "UP", "MEDIUM", 0, ⟨0, 0⟩, [⟨"Volume", 1/4⟩]⟩

/-- A neutral sentiment reading at confidence 0.5. -/
def cexS2 : SentimentInput := ⟨"neutral", 1/2, ⟨33/100, 33/100⟩⟩

/-- C2 counterexample: at cexP2/cexS2 the combined score is 0.222, so
min(95, 50 + |combined| * 60) = 63.32, but the engine reports 63.3 —
the reported confidence does not equal the unrounded formula. -/
theorem C2_confidence_rounding_cex :
    (generateSignal "BTC-USD" cexP2 cexS2 none).map TradingSignal.confidence =
      some (633/10) ∧
    min 95 (50 + |combinedScore cexP2 cexS2 none| * 60) = 1583/25 ∧
    (633/10 : ℚ) ≠ 1583/25 := by
  refine ⟨?_, ?_, by norm_num⟩
  · norm_num +decide [generateSignal, cexP2, cexS2, combinedScore,
      normalizeSignal, pyUpper, charUpper, signalDirection, sentimentDirection,
      technicalScore, price_weight, sentiment_weight, technical_weight,
      assessCombinedRisk, riskScore, combineFeatureImportance,
      featuresWithSentiment, featuresDict, insertFeature, insertDesc, sortDesc,
      pyRound, pyRoundInt, generateReasoning, strengthWord, fmtPct,
      SignalAction.str, min_def, Int.fract, abs_of_nonneg, abs_of_nonpos]
  · norm_num +decide [combinedScore, cexP2, cexS2, normalizeSignal, pyUpper,
      charUpper, signalDirection, sentimentDirection, technicalScore,
      price_weight, sentiment_weight, technical_weight, min_def, abs_of_nonneg]

/-- C2 amended: the reported fused confidence equals
min(95, 50 + |combined| * 60) rounded to one decimal (Python round), and it
always lies in [0, 95] (in fact in [50, 95]). -/
theorem C2_confidence_formula_bounds (asset : String)
    (p : PricePredictionInput) (s : SentimentInput) (t : Option TechnicalInput)
    (ts : TradingSignal) (h : generateSignal asset p s t = some ts) :
    ts.confidence = pyRound 1 (min 95 (50 + |combinedScore p s t| * 60)) ∧
    0 ≤ ts.confidence ∧ ts.confidence ≤ 95 := by
  obtain ⟨-, -, -, hcf, -⟩ := generateSignal_inv asset p s t ts h
  have h50 : (50 : ℚ) ≤ min 95 (50 + |combinedScore p s t| * 60) := by
    have := abs_nonneg (combinedScore p s t)
    apply le_min (by norm_num)
    nlinarith
  refine ⟨hcf, ?_, ?_⟩
  · rw [hcf]
    exact pyRound_nonneg 1 _ (by linarith)
  · rw [hcf]
    have h95 : min 95 (50 + |combinedScore p s t| * 60) ≤ ((95 : ℤ) : ℚ) := by
      push_cast
      exact min_le_left _ _
    have := pyRound_le_int 1 _ 95 h95
    exact_mod_cast this

/-- The TradingSignal the engine produces on the cexP2/cexS2 input. -/
def cexTS2 : TradingSignal :=
  ⟨"BTC-USD", .BUY, 633/10, .UP, .HIGH, 0, ⟨0, 0⟩,
    [⟨"Volume", 62/100⟩, ⟨"Sentiment Score", 38/100⟩],
    "Signal: BUY. Price prediction model suggests BUY. weak neutral market sentiment (50% confidence)."⟩

/-- Witness for the amended C2 at the cexP2/cexS2 input: the reported
63.3 is the rounding of 63.32 and lies in [0, 95]. -/
theorem C2_confidence_formula_bounds_witness :
    cexTS2.confidence = pyRound 1 (min 95 (50 + |combinedScore cexP2 cexS2 none| * 60)) ∧
    0 ≤ cexTS2.confidence ∧ cexTS2.confidence ≤ 95 := by
  have h : generateSignal "BTC-USD" cexP2 cexS2 none = some cexTS2 := by
    norm_num +decide [generateSignal, cexP2, cexS2, cexTS2, combinedScore,
      normalizeSignal, pyUpper, charUpper, signalDirection, sentimentDirection,
      technicalScore, price_weight, sentiment_weight, technical_weight,
      assessCombinedRisk, riskScore, combineFeatureImportance,
      featuresWithSentiment, featuresDict, insertFeature, insertDesc, sortDesc,
      pyRound, pyRoundInt, generateReasoning, strengthWord, fmtPct,
      SignalAction.str, min_def, Int.fract, abs_of_nonneg, abs_of_nonpos]
  exact C2_confidence_formula_bounds "BTC-USD" cexP2 cexS2 none cexTS2 h

/-! ## C7: risk-tier monotonicity in sentiment mixedness -/

/-- C7: risk-tier fusion is monotone in sentiment mixedness: for a fixed
price risk tier and fixed technical indicators, if sentiment reading a is
at least as mixed as b (spread |positive - negative| of a is no larger than
that of b), the fused risk tier computed with a is never lower than the
tier computed with b, per the scoring LOW=1, MEDIUM=2, HIGH=3, +0.5 when
spread < 0.2, +0.5 when RSI < 20 or RSI > 80, bucketed at
below 1.5 / below 2.5 / at least 2.5. -/
theorem C7_risk_monotone_in_mixedness (price_risk : String)
    (t : Option TechnicalInput) (a b : SentimentInput)
    (h : |a.scores.positive - a.scores.negative| ≤
      |b.scores.positive - b.scores.negative|) :
    (assessCombinedRisk price_risk b t).rank ≤
      (assessCombinedRisk price_risk a t).rank := by
  cases t with
  | none =>
    simp only [assessCombinedRisk]
    split_ifs <;> first
      | decide
      | (exfalso; linarith)
  | some tt =>
    simp only [assessCombinedRisk]
    split_ifs <;> first
      | decide
      | (exfalso; linarith)

/-- A maximally mixed sentiment reading (spread 0). -/
def mixedS7 : SentimentInput := ⟨"neutral", 1/2, ⟨4/10, 4/10⟩⟩

/-- A clearly leaning sentiment reading (spread 0.85). -/
def clearS7 : SentimentInput := ⟨"positive", 9/10, ⟨9/10, 5/100⟩⟩

/-- Witness for C7: with price risk MEDIUM and no technicals, the mixed
reading yields HIGH, the clear reading yields MEDIUM, and the monotonicity
instance holds. -/
theorem C7_risk_monotone_in_mixedness_witness :
    assessCombinedRisk "MEDIUM" mixedS7 none = RiskLevel.HIGH ∧
    assessCombinedRisk "MEDIUM" clearS7 none = RiskLevel.MEDIUM ∧
    (assessCombinedRisk "MEDIUM" clearS7 none).rank ≤
      (assessCombinedRisk "MEDIUM" mixedS7 none).rank := by
  refine ⟨?_, ?_, ?_⟩
  · norm_num +decide [assessCombinedRisk, riskScore, pyUpper, charUpper,
      mixedS7, abs_of_nonneg]
  · norm_num +decide [assessCombinedRisk, riskScore, pyUpper, charUpper,
      clearS7, abs_of_nonneg]
  · exact C7_risk_monotone_in_mixedness "MEDIUM" none mixedS7 clearS7
      (by norm_num [mixedS7, clearS7, abs_of_nonneg])

/-! ## Feature-map lemmas -/

theorem insertFeature_nonneg (m : List (String × ℚ)) (name : String) (v : ℚ)
    (hm : ∀ kv ∈ m, 0 ≤ kv.2) (hv : 0 ≤ v) :
    ∀ kv ∈ insertFeature m name v, 0 ≤ kv.2 := by
  intro kv hkv
  unfold insertFeature at hkv
  split_ifs at hkv
  · rw [List.mem_map] at hkv
    obtain ⟨kv0, h0, heq⟩ := hkv
    subst heq
    split_ifs
    · exact hv
    · exact hm kv0 h0
  · rw [List.mem_append] at hkv
    rcases hkv with h0 | h0
    · exact hm kv h0
    · simp only [List.mem_singleton] at h0
      subst h0
      exact hv

theorem featuresDict_nonneg (fs : List Feature)
    (hfs : ∀ f ∈ fs, 0 ≤ f.value) : ∀ kv ∈ featuresDict fs, 0 ≤ kv.2 := by
  suffices hgen : ∀ (l : List Feature) (m : List (String × ℚ)),
      (∀ f ∈ l, 0 ≤ f.value) → (∀ kv ∈ m, 0 ≤ kv.2) →
      ∀ kv ∈ l.foldl (fun m f => insertFeature m f.name f.value) m, 0 ≤ kv.2 by
    exact hgen fs [] hfs (by simp)
  intro l
  induction l with
  | nil => intro m _ hm kv hkv; exact hm kv hkv
  | cons f rest ih =>
    intro m hl hm kv hkv
    refine ih (insertFeature m f.name f.value)
      (fun g hg => hl g (List.mem_cons_of_mem f hg))
      (insertFeature_nonneg m f.name f.value hm (hl f (List.mem_cons_self f rest)))
      kv hkv

theorem featuresWithSentiment_nonneg (fs : List Feature) (conf : ℚ)
    (hfs : ∀ f ∈ fs, 0 ≤ f.value) (hconf : 0 ≤ conf) :
    ∀ kv ∈ featuresWithSentiment fs conf, 0 ≤ kv.2 := by
  intro kv hkv
  simp only [featuresWithSentiment] at hkv
  split_ifs at hkv
  · exact featuresDict_nonneg fs hfs kv hkv
  · rw [List.mem_append] at hkv
    rcases hkv with h0 | h0
    · exact featuresDict_nonneg fs hfs kv h0
    · simp only [List.mem_singleton] at h0
      subst h0
      have : (0 : ℚ) ≤ sentiment_weight := by norm_num [sentiment_weight]
      exact mul_nonneg this hconf

/-- The total the normalization step divides by. -/
def featureTotal (fs : List Feature) (conf : ℚ) : ℚ :=
  ((featuresWithSentiment fs conf).map (fun kv => kv.2)).sum

theorem combineFeatureImportance_isSome_iff (fs : List Feature) (conf : ℚ) :
    (combineFeatureImportance fs conf).isSome ↔ featureTotal fs conf ≠ 0 := by
  simp only [combineFeatureImportance, featureTotal]
  split_ifs with h <;> simp [h]

theorem generateSignal_isSome_iff (asset : String) (p : PricePredictionInput)
    (s : SentimentInput) (t : Option TechnicalInput) :
    (generateSignal asset p s t).isSome =
      (combineFeatureImportance p.feature_importance s.confidence).isSome := by
  cases hc : combineFeatureImportance p.feature_importance s.confidence <;>
    simp [generateSignal, hc]

/-! ## C10: the zero-total division failure of the fuse entry point -/

/-- C10: when the price prediction's feature_importance list is empty and
the sentiment confidence is 0, the injected Sentiment Score weight is 0 and
the normalization divides by a zero total, so generate_signal raises
ZeroDivisionError (modelled as none) instead of returning a TradingSignal;
and on well-formed inputs (non-negative feature weights, non-negative
sentiment confidence) fuse returns a TradingSignal exactly when the feature
weights plus the injected sentiment weight sum to a positive value. -/
theorem C10_zero_total_failure (asset : String) (p : PricePredictionInput)
    (s : SentimentInput) (t : Option TechnicalInput)
    (hfs : ∀ f ∈ p.feature_importance, 0 ≤ f.value) (hconf : 0 ≤ s.confidence) :
    (p.feature_importance = [] → s.confidence = 0 →
      generateSignal asset p s t = none) ∧
    ((generateSignal asset p s t).isSome ↔
      0 < featureTotal p.feature_importance s.confidence) := by
  constructor
  · intro h1 h2
    have hnone : combineFeatureImportance p.feature_importance s.confidence = none := by
      rw [h1, h2]
      norm_num +decide [combineFeatureImportance, featuresWithSentiment,
        featuresDict, sentiment_weight]
    cases hgs : generateSignal asset p s t with
    | none => rfl
    | some ts =>
      have := generateSignal_isSome_iff asset p s t
      rw [hgs, hnone] at this
      simp at this
  · rw [generateSignal_isSome_iff, combineFeatureImportance_isSome_iff]
    have hnn : 0 ≤ featureTotal p.feature_importance s.confidence :=
      List.sum_nonneg (by
        intro x hx
        rw [List.mem_map] at hx
        obtain ⟨kv, hkv, rfl⟩ := hx
        exact featuresWithSentiment_nonneg p.feature_importance s.confidence
          hfs hconf kv hkv)
    constructor
    · intro hne
      exact lt_of_le_of_ne hnn (Ne.symm hne)
    · intro hpos
      exact ne_of_gt hpos

/-- A price prediction with one positive feature. -/
def okP10 : PricePredictionInput :=
  ⟨"HOLD", 50, "SIDEWAYS", "LOW", 10, ⟨9, 11⟩, [⟨"Volume", 1/2⟩]⟩

/-- A neutral sentiment reading at confidence 0.5. -/
def okS10 : SentimentInput := ⟨"neutral", 1/2, ⟨1/3, 1/3⟩⟩

/-- Witness for C10: the empty-features, zero-confidence edge makes
generate_signal fail, while okP10/okS10 has positive total 0.65 and
fuse returns a signal. -/
theorem C10_zero_total_failure_witness :
    generateSignal "BTC-USD"
      ⟨"BUY", 75, "UP", "MEDIUM", 0, ⟨0, 0⟩, []⟩ ⟨"positive", 0, ⟨0, 0⟩⟩
      none = none ∧
    (generateSignal "BTC-USD" okP10 okS10 none).isSome := by
  constructor
  · exact (C10_zero_total_failure "BTC-USD" _ _ none (by simp) le_rfl).1 rfl rfl
  · refine (C10_zero_total_failure "BTC-USD" okP10 okS10 none ?_ ?_).2.mpr ?_
    · intro f hf
      simp only [okP10, List.mem_singleton] at hf
      subst hf
      norm_num
    · norm_num [okS10]
    · norm_num +decide [featureTotal, featuresWithSentiment, featuresDict,
        insertFeature, okP10, okS10, sentiment_weight]

/-! ## Sorting and rounding-sum lemmas for feature lists -/

theorem insertDesc_perm (x : Feature) (l : List Feature) :
    List.Perm (insertDesc x l) (x :: l) := by
  induction l with
  | nil => rfl
  | cons y t ih =>
    unfold insertDesc
    split_ifs
    · rfl
    · exact ((ih.cons y).trans (List.Perm.swap x y t))

theorem sortDesc_perm (l : List Feature) : List.Perm (sortDesc l) l := by
  induction l with
  | nil => rfl
  | cons x t ih => exact (insertDesc_perm x (sortDesc t)).trans (ih.cons x)

theorem insertDesc_sorted (x : Feature) (l : List Feature)
    (hl : l.Pairwise (fun a b => b.value ≤ a.value)) :
    (insertDesc x l).Pairwise (fun a b => b.value ≤ a.value) := by
  induction l with
  | nil => simp [insertDesc]
  | cons y t ih =>
    rw [List.pairwise_cons] at hl
    obtain ⟨hy, ht⟩ := hl
    unfold insertDesc
    split_ifs with hle
    · refine List.pairwise_cons.mpr ⟨?_, List.pairwise_cons.mpr ⟨hy, ht⟩⟩
      intro z hz
      rcases List.mem_cons.mp hz with rfl | hz
      · exact hle
      · exact le_trans (hy z hz) hle
    · refine List.pairwise_cons.mpr ⟨?_, ih ht⟩
      intro z hz
      have hz0 : z ∈ x :: t := (insertDesc_perm x t).mem_iff.mp hz
      rcases List.mem_cons.mp hz0 with rfl | hz0
      · linarith [lt_of_not_le hle]
      · exact hy z hz0

theorem sortDesc_sorted (l : List Feature) :
    (sortDesc l).Pairwise (fun a b => b.value ≤ a.value) := by
  induction l with
  | nil => simp [sortDesc]
  | cons x t ih => exact insertDesc_sorted x (sortDesc t) ih

/-- Rounding each term of a list to two decimals moves the sum by at most
length / 200. -/
theorem sum_map_pyRound2_close (l : List ℚ) :
    |(l.map (pyRound 2)).sum - l.sum| ≤ l.length * (1/200) := by
  induction l with
  | nil => simp
  | cons x t ih =>
    have hx := abs_pyRound_sub_le 2 x
    norm_num at hx
    simp only [List.map_cons, List.sum_cons, List.length_cons]
    have : pyRound 2 x + (t.map (pyRound 2)).sum - (x + t.sum) =
        (pyRound 2 x - x) + ((t.map (pyRound 2)).sum - t.sum) := by ring
    rw [this]
    calc |(pyRound 2 x - x) + ((t.map (pyRound 2)).sum - t.sum)|
        ≤ |pyRound 2 x - x| + |(t.map (pyRound 2)).sum - t.sum| := abs_add _ _
      _ ≤ 1/200 + t.length * (1/200) := add_le_add hx ih
      _ = (t.length + 1) * (1/200) := by ring
      _ = ((t.length + 1 : ℕ) : ℚ) * (1/200) := by push_cast; ring

theorem sum_map_div (l : List ℚ) (c : ℚ) : (l.map (fun x => x / c)).sum = l.sum / c := by
  induction l with
  | nil => simp
  | cons x t ih => simp [ih, add_div]

/-- Inversion of a successful _combine_feature_importance run. -/
theorem combineFeatureImportance_eq_some (fs : List Feature) (conf : ℚ)
    (l : List Feature) (h : combineFeatureImportance fs conf = some l) :
    featureTotal fs conf ≠ 0 ∧
    l = (sortDesc ((featuresWithSentiment fs conf).map
          (fun kv => Feature.mk kv.1 (pyRound 2 (kv.2 / featureTotal fs conf))))).take 6 := by
  simp only [combineFeatureImportance, featureTotal] at h ⊢
  split_ifs at h with h0
  rw [Option.some_inj] at h
  exact ⟨h0, h.symm⟩

/-! ## C3: shape of the emitted feature_importance list

The claim fails in two ways.  On the fused path the list is normalized
before being truncated to the top 6, so when more than 6 combined features
exist the emitted weights sum to well below 1 (the counterexample: seven
equal features plus the injected sentiment entry leave a sum of 0.84).  On
the backend fallback path the list is emitted in a fixed order (not sorted)
and its normalizing total omits the momentum term, so the sum can exceed
the tolerance as well.  What does hold: at most 6 entries and non-negative
weights on both paths; descending order on the fused path; and the
sum-to-1 property on the fused path when no truncation happens. -/

/-- Seven unit-weight features: enough to force truncation. -/
def cexP3 : PricePredictionInput :=
  ⟨"HOLD", 50, "SIDEWAYS", "MEDIUM", 0, ⟨0, 0⟩,
    [⟨"F1", 1⟩, ⟨"F2", 1⟩, ⟨"F3", 1⟩, ⟨"F4", 1⟩, ⟨"F5", 1⟩, ⟨"F6", 1⟩, ⟨"F7", 1⟩]⟩

/-- A neutral sentiment reading at confidence 0.5. -/
def cexS3 : SentimentInput := ⟨"neutral", 1/2, ⟨1/3, 1/3⟩⟩

/-- C3 counterexample: with seven unit features the emitted
feature_importance weights sum to 0.84, outside the claimed tolerance
1 plus or minus 0.06. -/
theorem C3_truncation_sum_cex :
    (generateSignal "BTC-USD" cexP3 cexS3 none).map
      (fun ts => (ts.feature_importance.map Feature.value).sum) = some (21/25) ∧
    ¬ |(21/25 : ℚ) - 1| ≤ 6/100 := by
  constructor
  · norm_num +decide [generateSignal, cexP3, cexS3, combinedScore,
      normalizeSignal, pyUpper, charUpper, signalDirection, sentimentDirection,
      technicalScore, price_weight, sentiment_weight, technical_weight,
      assessCombinedRisk, riskScore, combineFeatureImportance,
      featuresWithSentiment, featuresDict, insertFeature, insertDesc, sortDesc,
      pyRound, pyRoundInt, generateReasoning, strengthWord, fmtPct,
      SignalAction.str, min_def, Int.fract, abs_of_nonneg, abs_of_nonpos]
  · rw [abs_of_nonpos (by norm_num)]
    norm_num

/-- C3 amended: every emitted feature_importance list has at most 6
entries with non-negative weights (fused path under non-negative inputs;
fallback path under non-negative volatility); the fused list is sorted in
descending weight order, and when the combined feature set has at most 6
entries (no truncation) its weights sum to 1 within 0.03; the backend
fallback list always has exactly 5 entries. -/
theorem C3_feature_importance_shape (asset : String)
    (p : PricePredictionInput) (s : SentimentInput) (t : Option TechnicalInput)
    (ts : TradingSignal)
    (hfs : ∀ f ∈ p.feature_importance, 0 ≤ f.value) (hconf : 0 ≤ s.confidence)
    (h : generateSignal asset p s t = some ts) :
    ts.feature_importance.length ≤ 6 ∧
    (∀ f ∈ ts.feature_importance, 0 ≤ f.value) ∧
    ts.feature_importance.Pairwise (fun a b => b.value ≤ a.value) ∧
    ((featuresWithSentiment p.feature_importance s.confidence).length ≤ 6 →
      |(ts.feature_importance.map Feature.value).sum - 1| ≤ 3/100) ∧
    (∀ (rsi : ℚ) (macd : MacdResult) (vol pc : ℚ), 0 ≤ vol →
      (fallbackFeatures rsi macd vol pc).length = 5 ∧
      ∀ f ∈ fallbackFeatures rsi macd vol pc, 0 ≤ f.value) := by
  obtain ⟨hfi, -, -, -, -⟩ := generateSignal_inv asset p s t ts h
  obtain ⟨hne, heq⟩ := combineFeatureImportance_eq_some _ _ _ hfi
  have hFnn : ∀ kv ∈ featuresWithSentiment p.feature_importance s.confidence,
      0 ≤ kv.2 :=
    featuresWithSentiment_nonneg p.feature_importance s.confidence hfs hconf
  have hTnn : 0 ≤ featureTotal p.feature_importance s.confidence := by
    apply List.sum_nonneg
    intro x hx
    rw [List.mem_map] at hx
    obtain ⟨kv, hkv, rfl⟩ := hx
    exact hFnn kv hkv
  have hTpos : 0 < featureTotal p.feature_importance s.confidence :=
    lt_of_le_of_ne hTnn (Ne.symm hne)
  refine ⟨?_, ?_, ?_, ?_, ?_⟩
  · rw [heq, List.length_take]
    exact min_le_left _ _
  · intro f hf
    rw [heq] at hf
    have hf1 := List.take_subset 6 _ hf
    have hf2 := (sortDesc_perm _).mem_iff.mp hf1
    rw [List.mem_map] at hf2
    obtain ⟨kv, hkv, rfl⟩ := hf2
    exact pyRound_nonneg 2 _ (div_nonneg (hFnn kv hkv) hTpos.le)
  · rw [heq]
    exact (sortDesc_sorted _).sublist (List.take_sublist 6 _)
  · intro hlen
    rw [heq]
    have hlen2 : (sortDesc ((featuresWithSentiment p.feature_importance
        s.confidence).map (fun kv =>
          Feature.mk kv.1 (pyRound 2 (kv.2 / featureTotal p.feature_importance
            s.confidence))))).length ≤ 6 := by
      rw [(sortDesc_perm _).length_eq, List.length_map]
      exact hlen
    rw [List.take_of_length_le hlen2]
    rw [((sortDesc_perm _).map Feature.value).sum_eq]
    rw [List.map_map]
    have hcomp : (Feature.value ∘ fun kv : String × ℚ =>
        Feature.mk kv.1 (pyRound 2 (kv.2 / featureTotal p.feature_importance
          s.confidence))) =
        (pyRound 2) ∘ (fun x => x / featureTotal p.feature_importance
          s.confidence) ∘ (fun kv : String × ℚ => kv.2) := rfl
    rw [hcomp, ← List.map_map, ← List.map_map]
    set l := (featuresWithSentiment p.feature_importance s.confidence).map
      (fun kv : String × ℚ => kv.2) with hl
    have hsum1 : (l.map (fun x => x / featureTotal p.feature_importance
        s.confidence)).sum = 1 := by
      rw [sum_map_div]
      exact div_self hne
    have hclose := sum_map_pyRound2_close
      (l.map (fun x => x / featureTotal p.feature_importance s.confidence))
    rw [hsum1] at hclose
    have hlen3 : ((l.map (fun x => x / featureTotal p.feature_importance
        s.confidence)).length : ℚ) ≤ 6 := by
      rw [List.length_map, hl, List.length_map]
      exact_mod_cast hlen
    have : ((l.map (fun x => x / featureTotal p.feature_importance
        s.confidence)).length : ℚ) * (1/200) ≤ 6 * (1/200) :=
      mul_le_mul_of_nonneg_right hlen3 (by norm_num)
    calc |((l.map (fun x => x / featureTotal p.feature_importance
            s.confidence)).map (pyRound 2)).sum - 1|
        ≤ _ := hclose
      _ ≤ 6 * (1/200) := this
      _ = 3/100 := by norm_num
  · intro rsi macd vol pc hvol
    have habs1 := abs_nonneg (rsi - 50)
    have habs2 := abs_nonneg macd.histogram
    have habs3 := abs_nonneg pc
    have hT : (0 : ℚ) < |rsi - 50| + |macd.histogram| * 1000 + vol + 10 := by
      linarith
    refine ⟨rfl, ?_⟩
    intro f hf
    simp only [fallbackFeatures, List.mem_cons, List.mem_singleton,
      List.not_mem_nil, or_false] at hf
    rcases hf with rfl | rfl | rfl | rfl | rfl <;>
      exact pyRound_nonneg 2 _ (div_nonneg (by linarith) hT.le)

/-- Four distinct features plus the injected sentiment entry: five
combined entries, no truncation. -/
def w3P : PricePredictionInput :=
  ⟨"BUY", 75, "UP", "MEDIUM", 3300, ⟨3200, 3400⟩,
    [⟨"Volume", 1/4⟩, ⟨"RSI", 1/5⟩, ⟨"MACD", 9/50⟩, ⟨"Momentum", 3/20⟩]⟩

/-- A positive sentiment reading at confidence 0.82. -/
def w3S : SentimentInput := ⟨"positive", 82/100, ⟨82/100, 6/100⟩⟩

/-- The TradingSignal the engine produces on w3P/w3S without technicals. -/
def w3TS : TradingSignal :=
  ⟨"ETH-USD", .BUY, 459/5, .UP, .MEDIUM, 3300, ⟨3200, 3400⟩,
    [⟨"Volume", 6/25⟩, ⟨"Sentiment Score", 6/25⟩, ⟨"RSI", 19/100⟩,
     ⟨"MACD", 9/50⟩, ⟨"Momentum", 3/20⟩],
    "Signal: BUY. Price prediction model suggests BUY. strong positive market sentiment (82% confidence)."⟩

/-- Witness for the amended C3: on w3P/w3S the emitted list has 5 sorted
non-negative entries summing to exactly 1, and the fallback list at
neutral indicators has 5 entries. -/
theorem C3_feature_importance_shape_witness :
    w3TS.feature_importance.length ≤ 6 ∧
    (∀ f ∈ w3TS.feature_importance, 0 ≤ f.value) ∧
    w3TS.feature_importance.Pairwise (fun a b => b.value ≤ a.value) ∧
    |(w3TS.feature_importance.map Feature.value).sum - 1| ≤ 3/100 ∧
    (fallbackFeatures 50 ⟨0, 0, 0⟩ 0 0).length = 5 := by
  have h : generateSignal "ETH-USD" w3P w3S none = some w3TS := by
    norm_num +decide [generateSignal, w3P, w3S, w3TS, combinedScore,
      normalizeSignal, pyUpper, charUpper, signalDirection, sentimentDirection,
      technicalScore, price_weight, sentiment_weight, technical_weight,
      assessCombinedRisk, riskScore, combineFeatureImportance,
      featuresWithSentiment, featuresDict, insertFeature, insertDesc, sortDesc,
      pyRound, pyRoundInt, generateReasoning, strengthWord, fmtPct,
      SignalAction.str, min_def, Int.fract, abs_of_nonneg, abs_of_nonpos]
  have hfs : ∀ f ∈ w3P.feature_importance, 0 ≤ f.value := by
    intro f hf
    simp only [w3P, List.mem_cons, List.mem_singleton, List.not_mem_nil,
      or_false] at hf
    rcases hf with rfl | rfl | rfl | rfl <;> norm_num
  have hc := C3_feature_importance_shape "ETH-USD" w3P w3S none w3TS hfs
    (by norm_num [w3S]) h
  refine ⟨hc.1, hc.2.1, hc.2.2.1, hc.2.2.2.1 ?_,
    (hc.2.2.2.2 50 ⟨0, 0, 0⟩ 0 0 le_rfl).1⟩
  norm_num +decide [featuresWithSentiment, featuresDict, insertFeature,
    w3P, w3S]

/-! ## List-mean lemmas -/

theorem listMean_nonneg (l : List ℚ) (h : ∀ x ∈ l, 0 ≤ x) : 0 ≤ listMean l :=
  div_nonneg (List.sum_nonneg h) (Nat.cast_nonneg _)

theorem listMean_singleton (x : ℚ) : listMean [x] = x := by
  simp [listMean]

theorem pyRound_zero (n : ℕ) : pyRound n 0 = 0 := by
  norm_num [pyRound, pyRoundInt]

/-! ## C5: RSI -/

/-- C5: with fewer than 15 points the RSI computation returns exactly 50;
with at least 15 points and a trailing average loss of exactly 0 it returns
exactly 100; and the returned RSI always lies in [0, 100]. -/
theorem C5_rsi_properties (prices : List ℚ) :
    (prices.length < 15 → calculate_rsi prices = 50) ∧
    (15 ≤ prices.length →
      listMean (lastN 14 ((diffs prices).map (fun d => if d < 0 then -d else 0))) = 0 →
      calculate_rsi prices = 100) ∧
    (0 ≤ calculate_rsi prices ∧ calculate_rsi prices ≤ 100) := by
  have hlosses : ∀ x ∈ lastN 14 ((diffs prices).map
      (fun d => if d < 0 then -d else 0)), 0 ≤ x := by
    intro x hx
    have := List.drop_subset _ _ hx
    rw [List.mem_map] at this
    obtain ⟨d, -, rfl⟩ := this
    split_ifs with hd
    · linarith
    · rfl
  have hgains : ∀ x ∈ lastN 14 ((diffs prices).map
      (fun d => if 0 < d then d else 0)), 0 ≤ x := by
    intro x hx
    have := List.drop_subset _ _ hx
    rw [List.mem_map] at this
    obtain ⟨d, -, rfl⟩ := this
    split_ifs with hd
    · linarith
    · rfl
  refine ⟨?_, ?_, ?_⟩
  · intro h
    have h1 : prices.length < 14 + 1 := by omega
    simp [calculate_rsi, h1]
  · intro h hl
    have h1 : ¬ prices.length < 14 + 1 := by omega
    simp [calculate_rsi, h1, hl]
  · by_cases h1 : prices.length < 14 + 1
    · simp [calculate_rsi, h1]
      norm_num
    · by_cases h2 : listMean (lastN 14 ((diffs prices).map
          (fun d => if d < 0 then -d else 0))) = 0
      · simp [calculate_rsi, h1, h2]
      · have hG : 0 ≤ listMean (lastN 14 ((diffs prices).map
            (fun d => if 0 < d then d else 0))) := listMean_nonneg _ hgains
        have hL0 : 0 ≤ listMean (lastN 14 ((diffs prices).map
            (fun d => if d < 0 then -d else 0))) := listMean_nonneg _ hlosses
        have hL : 0 < listMean (lastN 14 ((diffs prices).map
            (fun d => if d < 0 then -d else 0))) := lt_of_le_of_ne hL0 (Ne.symm h2)
        set G := listMean (lastN 14 ((diffs prices).map
          (fun d => if 0 < d then d else 0)))
        set L := listMean (lastN 14 ((diffs prices).map
          (fun d => if d < 0 then -d else 0)))
        have hrs : 0 ≤ G / L := div_nonneg hG hL.le
        have hlow : (0 : ℚ) ≤ 100 - 100 / (1 + G / L) := by
          have hpos : (0 : ℚ) < 1 + G / L := by linarith
          have : 100 / (1 + G / L) ≤ 100 := by
            rw [div_le_iff₀ hpos]
            nlinarith
          linarith
        have hhigh : (100 : ℚ) - 100 / (1 + G / L) ≤ 100 := by
          have hpos : (0 : ℚ) < 1 + G / L := by linarith
          have : 0 < 100 / (1 + G / L) := by positivity
          linarith
        simp only [calculate_rsi, h1, if_false, h2]
        constructor
        · exact pyRound_nonneg 2 _ hlow
        · have := pyRound_le_int 2 (100 - 100 / (1 + G / L)) 100 (by exact_mod_cast hhigh)
          exact_mod_cast this

/-- A strictly increasing 15-point series (the unit test's RSI input):
every delta is a gain, so the trailing average loss is 0. -/
def upPrices5 : List ℚ :=
  [10, 11, 12, 13, 14, 15, 16, 17, 18, 19, 20, 21, 22, 23, 24]

/-- Witness for C5: a 3-point series yields the neutral 50, the strictly
increasing 15-point series yields the saturated 100, and both lie in
[0, 100]. -/
theorem C5_rsi_properties_witness :
    calculate_rsi [1, 2, 3] = 50 ∧
    calculate_rsi upPrices5 = 100 ∧
    0 ≤ calculate_rsi upPrices5 ∧ calculate_rsi upPrices5 ≤ 100 := by
  refine ⟨(C5_rsi_properties [1, 2, 3]).1 (by norm_num),
    (C5_rsi_properties upPrices5).2.1 (by norm_num [upPrices5]) ?_,
    (C5_rsi_properties upPrices5).2.2⟩
  norm_num [upPrices5, lastN, diffs, listMean]

/-! ## C6: MACD

The claim's exact statement fails for two reasons visible in the source:
the returned fields are rounded to 4 decimals, and the signal line is
calculate_ema applied to the one-element array [macd_line] (the isinstance
test on a Python float is always true), which degenerates to the MACD line
itself, making the histogram always 0. -/

/-- 25 flat prices followed by one rise: EMA12 - EMA26 = 28/351, which has
no finite 4-decimal representation. -/
def cexPrices6 : List ℚ :=
  [1, 1, 1, 1, 1, 1, 1, 1, 1, 1, 1, 1, 1, 1, 1, 1, 1, 1, 1, 1, 1, 1, 1, 1, 1, 2]

/-- C6 counterexample: on cexPrices6 the returned macd field is the
4-decimal rounding 0.0798, not the exact EMA(12) - EMA(26) = 28/351. -/
theorem C6_macd_rounding_cex :
    (calculate_macd cexPrices6).macd ≠
      calculate_ema cexPrices6 12 - calculate_ema cexPrices6 26 := by
  norm_num +decide [calculate_macd, calculate_ema, cexPrices6, lastN,
    listMean, pyRound, pyRoundInt, Int.fract]

/-- C6 amended: with fewer than 26 points MACD returns the zeroed
structure; with at least 26 points it returns macd line =
round4(EMA(12) - EMA(26)), signal line = the same value (the EMA(9) is
taken of the one-element series [macd_line] and degenerates to its mean,
the MACD line itself), and histogram = 0. -/
theorem C6_macd_structure (prices : List ℚ) :
    (prices.length < 26 → calculate_macd prices = ⟨0, 0, 0⟩) ∧
    (26 ≤ prices.length →
      calculate_macd prices =
        ⟨pyRound 4 (calculate_ema prices 12 - calculate_ema prices 26),
         pyRound 4 (calculate_ema prices 12 - calculate_ema prices 26),
         0⟩) := by
  constructor
  · intro h
    simp [calculate_macd, h]
  · intro h
    have h1 : ¬ prices.length < 26 := by omega
    have hsig : calculate_ema [calculate_ema prices 12 - calculate_ema prices 26] 9 =
        calculate_ema prices 12 - calculate_ema prices 26 := by
      have : ([calculate_ema prices 12 - calculate_ema prices 26] : List ℚ).length < 9 := by
        simp
      simp [calculate_ema, this, listMean_singleton]
    simp only [calculate_macd, h1, if_false, hsig]
    rw [sub_self, pyRound_zero]

/-- Witness for the amended C6: a 2-point series returns the zeroed
structure, and cexPrices6 returns the rounded 0.0798 in both the macd and
signal fields with a zero histogram. -/
theorem C6_macd_structure_witness :
    calculate_macd [1, 2] = ⟨0, 0, 0⟩ ∧
    calculate_macd cexPrices6 = ⟨399/5000, 399/5000, 0⟩ := by
  refine ⟨(C6_macd_structure [1, 2]).1 (by norm_num), ?_⟩
  rw [(C6_macd_structure cexPrices6).2 (by norm_num [cexPrices6])]
  norm_num +decide [calculate_ema, cexPrices6, lastN, listMean, pyRound,
    pyRoundInt, Int.fract]

/-! ## Provenance tags -/

/-- No reasoning string ends in both provenance tags: a fallback-tagged
result is always distinguishable from an external-model result. -/
theorem fallbackTag_ne_externalTag (p q : String) :
    p ++ fallbackTag ≠ q ++ externalTag := by
  intro h
  have hd := congrArg (fun s : String => s.data.reverse[1]?) h
  simp only [String.data_append, List.reverse_append] at hd
  rw [List.getElem?_append_left (by decide),
    List.getElem?_append_left (by decide)] at hd
  revert hd
  decide

/-! ## C4: the prediction operation degrades to the rule-based fallback -/

/-- C4: the prediction operation never raises: whenever either external
call fails (any non-success status, exception or timeout — all collapsed
by call_ai_service into a None result), generate_real_prediction still
returns a structurally complete signal derived by the local rule-based
predictor from the indicators alone, whose reasoning carries the fallback
tag, and no string tagged as fallback can equal a string tagged as coming
from the external model; if even the market-data fetch fails, the static
fallback signal is still returned. -/
theorem C4_fallback_on_ai_failure (sqrtQ : ℚ → ℚ) (cache : Cache) (now : ℚ)
    (nowIso asset : String) (prices : List ℚ) (current_price : ℚ)
    (hmiss : cacheLookup cache asset now = none)
    (hlast : prices.getLast? = some current_price) :
    (generateRealPrediction sqrtQ cache now nowIso asset (.success prices)
        none).result =
      { asset := pyUpper asset
        timestamp := nowIso
        signal := (analyze_indicators current_price
          (prevClose prices current_price) (calculate_rsi prices)
          (calculate_macd prices) (calculate_moving_averages prices)
          (calculate_volatility sqrtQ prices)).signal
        confidence := pyRound 1 (analyze_indicators current_price
          (prevClose prices current_price) (calculate_rsi prices)
          (calculate_macd prices) (calculate_moving_averages prices)
          (calculate_volatility sqrtQ prices)).confidence
        trend := (analyze_indicators current_price
          (prevClose prices current_price) (calculate_rsi prices)
          (calculate_macd prices) (calculate_moving_averages prices)
          (calculate_volatility sqrtQ prices)).trend
        risk_level := calculate_risk (calculate_rsi prices)
          (calculate_volatility sqrtQ prices)
        predicted_price := pyRound 2 (current_price *
          (1 + (if 0 < prevClose prices current_price then
            (current_price - prevClose prices current_price) /
              prevClose prices current_price else 0) * (1/2)))
        predicted_range :=
          ⟨pyRound 2 (current_price *
            (1 - calculate_volatility sqrtQ prices / 100 * 2)),
           pyRound 2 (current_price *
            (1 + calculate_volatility sqrtQ prices / 100 * 2))⟩
        feature_importance := fallbackFeatures (calculate_rsi prices)
          (calculate_macd prices) (calculate_volatility sqrtQ prices)
          (if 0 < prevClose prices current_price then
            (current_price - prevClose prices current_price) /
              prevClose prices current_price else 0)
        reasoning := (analyze_indicators current_price
          (prevClose prices current_price) (calculate_rsi prices)
          (calculate_macd prices) (calculate_moving_averages prices)
          (calculate_volatility sqrtQ prices)).reasoning ++ fallbackTag } ∧
    (∀ p q : String, p ++ fallbackTag ≠ q ++ externalTag) ∧
    generateRealPrediction sqrtQ cache now nowIso asset .failure none =
      ⟨generateFallbackPrediction asset nowIso, cache, false⟩ := by
  refine ⟨?_, fallbackTag_ne_externalTag, ?_⟩
  · simp only [generateRealPrediction, hmiss, computePrediction, hlast]
  · simp only [generateRealPrediction, hmiss, computePrediction]

/-- Witness for C4 on a one-point series with both external calls failing:
the returned signal is the rule-based SELL with the fallback-tagged
reasoning. -/
theorem C4_fallback_on_ai_failure_witness :
    (generateRealPrediction (fun _ => 0) [] 0 "T0" "BTC-USD"
        (.success [100]) none).result.reasoning =
      "SELL signal based on: Price below SMA20, EMA12 < EMA26 (bearish cross)" ++
        fallbackTag ∧
    (generateRealPrediction (fun _ => 0) [] 0 "T0" "BTC-USD"
        (.success [100]) none).result.signal = "SELL" := by
  have h := C4_fallback_on_ai_failure (fun _ => 0) [] 0 "T0" "BTC-USD"
    [100] 100 rfl rfl
  rw [h.1]
  constructor
  · show (analyze_indicators 100 (prevClose [100] 100) (calculate_rsi [100])
      (calculate_macd [100]) (calculate_moving_averages [100])
      (calculate_volatility (fun _ => 0) [100])).reasoning ++ fallbackTag = _
    norm_num +decide [analyze_indicators, prevClose, calculate_rsi,
      calculate_macd, calculate_moving_averages, calculate_volatility,
      calculate_ema, lastN, listMean, diffs, pyRound, pyRoundInt, fmt1,
      Int.fract, min_def, abs_of_nonneg, String.intercalate, List.intersperse]
  · show (analyze_indicators 100 (prevClose [100] 100) (calculate_rsi [100])
      (calculate_macd [100]) (calculate_moving_averages [100])
      (calculate_volatility (fun _ => 0) [100])).signal = _
    norm_num +decide [analyze_indicators, prevClose, calculate_rsi,
      calculate_macd, calculate_moving_averages, calculate_volatility,
      calculate_ema, lastN, listMean, diffs, pyRound, pyRoundInt, fmt1,
      Int.fract, min_def, abs_of_nonneg]

/-! ## C8: prediction-cache read semantics -/

/-- C8: a cache lookup for an asset is absent (triggering recomputation)
exactly when the key was never written or when now - created_at is at
least the TTL; and after a first computing call for an asset (with market
data present, whatever the AI-service outcome), a second call within the
TTL window returns the identical cached signal with no outbound call. -/
theorem C8_cache_read_semantics (cache : Cache) (asset : String) (now : ℚ) :
    (cacheLookup cache asset now = none ↔
      (List.lookup (pyUpper asset) cache = none ∨
       ∃ e, List.lookup (pyUpper asset) cache = some e ∧
         PREDICTION_CACHE_TTL ≤ now - e.timestamp)) ∧
    (∀ (sqrtQ sqrtQ2 : ℚ → ℚ) (nowIso nowIso2 : String) (prices : List ℚ)
       (current_price : ℚ) (ai1 : Option AISignal) (fetch2 : FetchOutcome)
       (ai2 : Option AISignal) (t2 : ℚ),
      cacheLookup cache asset now = none →
      prices.getLast? = some current_price →
      t2 - now < PREDICTION_CACHE_TTL →
      generateRealPrediction sqrtQ2
          (generateRealPrediction sqrtQ cache now nowIso asset
            (.success prices) ai1).cache
          t2 nowIso2 asset fetch2 ai2 =
        ⟨(generateRealPrediction sqrtQ cache now nowIso asset
            (.success prices) ai1).result,
         (generateRealPrediction sqrtQ cache now nowIso asset
            (.success prices) ai1).cache,
         false⟩) := by
  constructor
  · cases hk : List.lookup (pyUpper asset) cache with
    | none => simp [cacheLookup, hk]
    | some e =>
      simp only [cacheLookup, hk]
      constructor
      · intro h
        right
        refine ⟨e, rfl, ?_⟩
        by_contra hc
        push_neg at hc
        rw [if_pos hc] at h
        simp at h
      · rintro (h | ⟨e2, he2, ht⟩)
        · simp at h
        · rw [Option.some_inj] at he2
          subst he2
          rw [if_neg (by linarith)]
  · intro sqrtQ sqrtQ2 nowIso nowIso2 prices current_price ai1 fetch2 ai2 t2
      hmiss hlast htt
    have hrun : (generateRealPrediction sqrtQ cache now nowIso asset
        (.success prices) ai1).cache =
        (pyUpper asset,
          ⟨(generateRealPrediction sqrtQ cache now nowIso asset
              (.success prices) ai1).result, now⟩) ::
          cache := by
      cases ai1 with
      | none => simp only [generateRealPrediction, hmiss, computePrediction,
          hlast, cacheStore]
      | some sig => simp only [generateRealPrediction, hmiss,
          computePrediction, hlast, cacheStore]
    conv_lhs => rw [generateRealPrediction, hrun]
    rw [show cacheLookup ((pyUpper asset,
        ⟨(generateRealPrediction sqrtQ cache now nowIso asset
            (.success prices) ai1).result, now⟩) :: cache) asset t2 =
        some (generateRealPrediction sqrtQ cache now nowIso asset
            (.success prices) ai1).result from by
      simp only [cacheLookup, List.lookup_cons_self]
      rw [if_pos htt]]
    rw [← hrun]

/-- Witness for C8: an empty cache misses, and after a first run at time 0
on a one-point series, a second run at time 30 (within the 60-second TTL)
returns the identical result with no outbound call, even though its own
fetch would fail. -/
theorem C8_cache_read_semantics_witness :
    cacheLookup [] "BTC-USD" 0 = none ∧
    generateRealPrediction (fun _ => 0)
        (generateRealPrediction (fun _ => 0) [] 0 "T0" "BTC-USD"
          (.success [100]) none).cache
        30 "T1" "BTC-USD" .failure none =
      ⟨(generateRealPrediction (fun _ => 0) [] 0 "T0" "BTC-USD"
          (.success [100]) none).result,
       (generateRealPrediction (fun _ => 0) [] 0 "T0" "BTC-USD"
          (.success [100]) none).cache,
       false⟩ := by
  refine ⟨rfl, ?_⟩
  exact (C8_cache_read_semantics [] "BTC-USD" 0).2 (fun _ => 0) (fun _ => 0)
    "T0" "T1" [100] 100 none .failure none 30 rfl rfl
    (by norm_num [PREDICTION_CACHE_TTL])

/-! ## C9: cache write before return

The claim fails: the static no-data fallback (_generate_fallback_prediction,
reached when the history is empty or the fetch raises) is returned without
being stored in the prediction cache.  The computing paths (external result
or local rule-based result) do store before returning. -/

/-- C9 counterexample: with an empty price history the call returns the
static HOLD fallback but the cache stays empty — the returned signal was
not stored under the asset's key. -/
theorem C9_static_fallback_not_cached_cex :
    List.lookup (pyUpper "BTC-USD")
      (generateRealPrediction (fun _ => 0) [] 0 "T0" "BTC-USD"
        (.success []) none).cache = none ∧
    (generateRealPrediction (fun _ => 0) [] 0 "T0" "BTC-USD"
      (.success []) none).result.signal = "HOLD" := by
  exact ⟨rfl, rfl⟩

/-- C9 amended: whenever market data is present (and the cache missed),
the returned signal — whether from the external AI service or from the
local rule-based path — is stored in the prediction cache under the
asset's uppercased key, with the call's timestamp, before being returned;
the static no-data fallback path returns without writing to the cache. -/
theorem C9_cache_write_on_return (sqrtQ : ℚ → ℚ) (cache : Cache) (now : ℚ)
    (nowIso asset : String) (prices : List ℚ) (current_price : ℚ)
    (ai : Option AISignal)
    (hmiss : cacheLookup cache asset now = none)
    (hlast : prices.getLast? = some current_price) :
    List.lookup (pyUpper asset)
        (generateRealPrediction sqrtQ cache now nowIso asset
          (.success prices) ai).cache =
      some ⟨(generateRealPrediction sqrtQ cache now nowIso asset
          (.success prices) ai).result, now⟩ ∧
    (generateRealPrediction sqrtQ cache now nowIso asset .failure ai).cache =
      cache ∧
    (generateRealPrediction sqrtQ cache now nowIso asset .failure ai).result =
      generateFallbackPrediction asset nowIso := by
  refine ⟨?_, ?_, ?_⟩
  · cases ai with
    | none =>
      simp only [generateRealPrediction, hmiss, computePrediction, hlast,
        cacheStore]
      exact List.lookup_cons_self
    | some sig =>
      simp only [generateRealPrediction, hmiss, computePrediction, hlast,
        cacheStore]
      exact List.lookup_cons_self
  · simp only [generateRealPrediction, hmiss, computePrediction]
  · simp only [generateRealPrediction, hmiss, computePrediction]

/-- Witness for the amended C9: after a run at time 0 on a one-point
series with the AI service down, the cache holds the returned signal under
the key BTC-USD, and a fetch-failure run leaves the empty cache empty. -/
theorem C9_cache_write_on_return_witness :
    List.lookup (pyUpper "BTC-USD")
        (generateRealPrediction (fun _ => 0) [] 0 "T0" "BTC-USD"
          (.success [100]) none).cache =
      some ⟨(generateRealPrediction (fun _ => 0) [] 0 "T0" "BTC-USD"
          (.success [100]) none).result, 0⟩ ∧
    (generateRealPrediction (fun _ => 0) [] 0 "T0" "BTC-USD"
      .failure none).cache = ([] : Cache) := by
  have h := C9_cache_write_on_return (fun _ => 0) [] 0 "T0" "BTC-USD"
    [100] 100 none rfl rfl
  exact ⟨h.1, h.2.1⟩

end AIMP
